import Mathlib

/-!
Verification of the oil-and-rope repository slice: the display-language
context processor in core/context_processors.py and the registration
views (login, sign-up, account activation) exercised by
tests/registration/test_views.py.
-/

namespace OilAndRope

/-! ## Data model for the context processor

A `Profile` is the per-user settings record holding a language
preference.  A `User` carries the authentication flag and an optional
related `Profile` record: `none` models an authenticated account for
which no profile row exists, in which case the attribute access
`request.user.profile` raises `RelatedObjectDoesNotExist` in the ORM.
A `Request` exposes the user; `Settings` holds the global default
`LANGUAGE_CODE`.
-/

structure Profile where
  language : String
deriving Repr, DecidableEq

structure User where
  is_authenticated : Bool
  profile : Option Profile
deriving Repr, DecidableEq

structure Request where
  user : User
deriving Repr, DecidableEq

structure Settings where
  LANGUAGE_CODE : String
deriving Repr, DecidableEq

/-- The context dictionary returned by a context processor: an
association list of template-variable names to values. -/
abbrev Context := List (String × String)

/-- Embedding of `core/context_processors.py`, function `language`.
The source reads: if `request.user.is_authenticated` then bind
`profile = request.user.profile` and return the context mapping
`lan` to `profile.language`; otherwise return the context mapping
`lan` to `settings.LANGUAGE_CODE`.  The attribute access
`request.user.profile` raises when no profile record exists, which the
embedding models as `Except.error`. -/
def language (settings : Settings) (request : Request) : Except String Context :=
  if request.user.is_authenticated then
    match request.user.profile with
    | some profile => Except.ok [("lan", profile.language)]
    | none => Except.error "RelatedObjectDoesNotExist"
  else
    Except.ok [("lan", settings.LANGUAGE_CODE)]

/-- The value bound to the template variable `lan` in a context
processor result, when the call returned normally. -/
def lanValue (r : Except String Context) : Option String :=
  match r with
  | Except.ok ctx => (ctx.find? (fun p => p.1 = "lan")).map Prod.snd
  | Except.error _ => none

/-- Spec reading of a language code: a short, two-character-ish string
such as en or en-us (at most five characters). -/
def twoCharIsh (s : String) : Prop := s.length ≤ 5

instance (s : String) : Decidable (twoCharIsh s) := by
  unfold twoCharIsh; infer_instance

/-! ## Spec-modelled registration views

The view code (registration/views.py: LoginView, SignUpView,
ActivateAccountView) is not among the repository sources here; only its
test suite tests/registration/test_views.py is.  The definitions below
are therefore modelled from the spec sections 6-8 and from the
behaviour the tests assert.
-/

/-- A persisted user row: primary key, credentials, email and the
active flag. -/
structure DbUser where
  pk : Nat
  username : String
  password : String
  email : String
  is_active : Bool
deriving Repr, DecidableEq

/-- Server-side state: the user table, the count of outbound emails in
the test mail outbox, and the next primary key to assign. -/
structure ServerState where
  users : List DbUser
  outbox : Nat
  nextPk : Nat
deriving Repr, DecidableEq

/-- The client session: the primary key of the authenticated user, or
`none` for an anonymous client. -/
structure Session where
  authenticatedPk : Option Nat
deriving Repr, DecidableEq

/-- A flash message emitted through the messages framework. -/
inductive Message where
  | success (text : String)
  | warning (text : String)
deriving Repr, DecidableEq

/-- An HTTP response as the tests observe it: status code, redirect
target, field-level form errors, and flash messages. -/
structure Response where
  status : Nat
  redirectTo : Option String
  formErrors : List (String × String)
  messages : List Message
deriving Repr, DecidableEq

/-- A response with no redirect, no errors and no messages. -/
def plainResponse (status : Nat) : Response :=
  { status := status, redirectTo := none, formErrors := [], messages := [] }

/-- Modelled from the spec: an already-authenticated user is redirected
(302) away from login and register, an anonymous user gets a 200
render.  Shared by the GET handlers of LoginView and SignUpView. -/
def redirectIfLoggedGet (sess : Session) : Response :=
  match sess.authenticatedPk with
  | some _ => { plainResponse 302 with redirectTo := some "/" }
  | none => plainResponse 200

/-- Modelled from the spec: GET of the login endpoint. -/
def loginGet (sess : Session) : Response :=
  redirectIfLoggedGet sess

/-- Modelled from the spec: GET of the register endpoint. -/
def registerGet (sess : Session) : Response :=
  redirectIfLoggedGet sess

/-- Look up a user row by credentials. -/
def findUser (users : List DbUser) (username password : String) : Option DbUser :=
  users.find? (fun u => u.username = username && u.password = password)

/-- The warning the login view emits for an inactive user, as asserted
by TestLoginView.test_user_inactive_warning_ko. -/
def inactiveWarning : String :=
  "Seems like this user is inactive. Have you confirmed your email?"

/-- Modelled from the spec: POST of the login endpoint
(registration/views.py LoginView).  Valid credentials of an active
user establish a session; credentials of an inactive user emit the
inactive warning and establish no session; credentials matching no
user re-render the form with a 200 (the view catches the lookup
failure so no 500 escapes). -/
def loginPost (st : ServerState) (sess : Session) (username password : String) :
    Response × Session :=
  match findUser st.users username password with
  | some u =>
      if u.is_active then
        ({ plainResponse 302 with redirectTo := some "/" },
         { authenticatedPk := some u.pk })
      else
        ({ plainResponse 200 with messages := [Message.warning inactiveWarning] },
         sess)
  | none =>
      ({ plainResponse 200 with
           formErrors := [("__all__", "Please enter a correct username and password.")] },
       sess)

/-- The raw data of a POST to the register endpoint; `none` models an
absent field. -/
structure RegisterForm where
  username : Option String
  email : Option String
  password1 : Option String
  password2 : Option String
deriving Repr, DecidableEq

/-- The error text for an absent required field. -/
def requiredMsg : String := "This field is required."

/-- The error text for mismatched passwords. -/
def pwMismatchMsg : String := "The two password fields didn\x27t match."

/-- The field-level error for an absent required field. -/
def requiredError (field : String) (value : Option String) : List (String × String) :=
  match value with
  | some _ => []
  | none => [(field, requiredMsg)]

/-- The field-level error on password2 when the two passwords differ,
as asserted by TestSignUpView.test_wrong_confim_password. -/
def passwordMatchError (f : RegisterForm) : List (String × String) :=
  match f.password1, f.password2 with
  | some p1, some p2 =>
      if p1 = p2 then []
      else [("password2", pwMismatchMsg)]
  | _, _ => []

/-- Whether a username is already taken in the user table. -/
def usernameTaken (users : List DbUser) (name : String) : Bool :=
  users.any (fun u => u.username = name)

/-- The field-level error when the username is already taken. -/
def usernameTakenError (users : List DbUser) (f : RegisterForm) : List (String × String) :=
  match f.username with
  | some un =>
      if usernameTaken users un then
        [("username", "A user with that username already exists.")]
      else []
  | none => []

/-- All validation errors of the registration form. -/
def registerFormErrors (users : List DbUser) (f : RegisterForm) : List (String × String) :=
  requiredError "username" f.username ++
  requiredError "email" f.email ++
  requiredError "password1" f.password1 ++
  requiredError "password2" f.password2 ++
  passwordMatchError f ++
  usernameTakenError users f

/-- The success message the sign-up view emits, as asserted by
TestSignUpView.test_user_can_register_ok. -/
def signUpSuccessMessage : String :=
  "User created! Please confirm your email."

/-- Modelled from the spec: POST of the register endpoint
(registration/views.py SignUpView).  A well-formed data set creates a
User row, sends one activation email and shows the success message; an
invalid form re-renders with 200 and its field-level errors. -/
def registerPost (st : ServerState) (f : RegisterForm) : Response × ServerState :=
  match registerFormErrors st.users f with
  | [] =>
      match f.username, f.email, f.password1 with
      | some un, some em, some p1 =>
          let newUser : DbUser :=
            { pk := st.nextPk, username := un, password := p1,
              email := em, is_active := false }
          ({ plainResponse 302 with
               redirectTo := some "/",
               messages := [Message.success signUpSuccessMessage] },
           { users := st.users ++ [newUser],
             outbox := st.outbox + 1,
             nextPk := st.nextPk + 1 })
      | _, _, _ => (plainResponse 200, st)
  | errs => ({ plainResponse 200 with formErrors := errs }, st)

/-- Modelled from the spec: the activation token of a user, a token
proving control of the registered email address
(PasswordResetTokenGenerator.make_token). -/
def makeToken (u : DbUser) : String :=
  "token-" ++ toString u.pk ++ "-" ++ u.username

/-- Modelled from the spec: the redirect target configured on
ActivateAccountView as its `url` attribute. -/
def activateAccountViewUrl : String := "/login"

/-- The confirmation message the activation view emits, as asserted by
TestActivateAccountView.test_validates_ok. -/
def activateSuccessMessage : String :=
  "Your email has been confirmed!"

/-- Look up a user row by primary key, the reload the tests perform
with refresh_from_db. -/
def getUserByPk (st : ServerState) (pk : Nat) : Option DbUser :=
  st.users.find? (fun u => u.pk = pk)

/-- Modelled from the spec: GET of the activation URL
(registration/views.py ActivateAccountView).  A valid token for the
user with the given pk flips is_active to true, emits the confirmation
message and redirects to the view url; an invalid token or unknown pk
redirects without activating. -/
def activateGet (st : ServerState) (pk : Nat) (token : String) :
    Response × ServerState :=
  match getUserByPk st pk with
  | some u =>
      if token = makeToken u then
        ({ plainResponse 302 with
             redirectTo := some activateAccountViewUrl,
             messages := [Message.success activateSuccessMessage] },
         { st with
             users := st.users.map (fun v =>
               if v.pk = pk then { v with is_active := true } else v) })
      else
        ({ plainResponse 302 with redirectTo := some activateAccountViewUrl }, st)
  | none =>
      ({ plainResponse 302 with redirectTo := some activateAccountViewUrl }, st)

/-- The number of user rows with a given username. -/
def countUsername (users : List DbUser) (un : String) : Nat :=
  (users.filter (fun u => u.username = un)).length

/-! ## Helper lemmas -/

theorem countUsername_eq_zero (users : List DbUser) (un : String)
    (h : usernameTaken users un = false) : countUsername users un = 0 := by
  induction users with
  | nil => rfl
  | cons a as ih =>
      simp only [usernameTaken, List.any_cons, Bool.or_eq_false_iff] at h
      simp only [countUsername, List.filter_cons, h.1, decide_eq_true_eq]
      rw [if_neg (by simp [h.1])]
      exact ih h.2

theorem find_map_setActive (users : List DbUser) (pk : Nat) (u : DbUser)
    (h : users.find? (fun v => v.pk = pk) = some u) :
    (users.map (fun v => if v.pk = pk then { v with is_active := true } else v)).find?
      (fun v => v.pk = pk) = some { u with is_active := true } := by
  induction users with
  | nil => simp at h
  | cons a as ih =>
      by_cases ha : a.pk = pk
      · rw [List.find?_cons_of_pos _ (by simp [ha])] at h
        cases h
        simp only [List.map_cons, if_pos ha]
        exact List.find?_cons_of_pos _ (by simp [ha])
      · rw [List.find?_cons_of_neg _ (by simp [ha])] at h
        simp only [List.map_cons, if_neg ha]
        rw [List.find?_cons_of_neg _ (by simp [ha])]
        exact ih h

theorem registerPost_formErrors_of_ne_nil (st : ServerState) (f : RegisterForm)
    (h : registerFormErrors st.users f ≠ []) :
    (registerPost st f).1.formErrors = registerFormErrors st.users f := by
  unfold registerPost
  split
  · next heq => exact absurd heq h
  · next errs heq => simp [heq]

/-! ## Claim theorems -/

/-- C1, counterexample: the claim quantifies over every authenticated
request, but on an authenticated user with no profile record the
context processor raises instead of returning any dictionary. -/
theorem language_C1_counterexample :
    (Request.mk (User.mk true none)).user.is_authenticated = true ∧
    language (Settings.mk "en") (Request.mk (User.mk true none)) =
      Except.error "RelatedObjectDoesNotExist" :=
  ⟨rfl, rfl⟩

/-- C1, amended: for every authenticated request whose user has a
profile record, `language` returns the context binding lan to the
profile language; for every unauthenticated request it returns the
context binding lan to the global default LANGUAGE_CODE. -/
theorem language_C1_amended (s : Settings) (r : Request) :
    (∀ p, r.user.is_authenticated = true → r.user.profile = some p →
      language s r = Except.ok [("lan", p.language)]) ∧
    (r.user.is_authenticated = false →
      language s r = Except.ok [("lan", s.LANGUAGE_CODE)]) := by
  constructor
  · intro p ha hp
    simp [language, ha, hp]
  · intro ha
    simp [language, ha]

/-- C1 amended, witness at concrete inputs. -/
theorem language_C1_amended_witness :
    language (Settings.mk "en") (Request.mk (User.mk true (some (Profile.mk "es")))) =
      Except.ok [("lan", "es")] ∧
    language (Settings.mk "en") (Request.mk (User.mk false none)) =
      Except.ok [("lan", "en")] :=
  ⟨(language_C1_amended (Settings.mk "en")
      (Request.mk (User.mk true (some (Profile.mk "es"))))).1 (Profile.mk "es") rfl rfl,
   (language_C1_amended (Settings.mk "en") (Request.mk (User.mk false none))).2 rfl⟩

/-- C2, counterexample: the value bound to lan is whatever string the
profile stores; here a 36-character string, not a two-character-ish
language code. -/
theorem language_C2_counterexample :
    lanValue (language (Settings.mk "en")
      (Request.mk (User.mk true (some (Profile.mk "definitely not a short language code"))))) =
      some "definitely not a short language code" ∧
    ¬ twoCharIsh "definitely not a short language code" := by
  exact ⟨rfl, by decide⟩

/-- C2, amended: whenever `language` returns normally, the value bound
to lan is passed through unchanged: it is the stored profile language
of the user, or else the global LANGUAGE_CODE; no shortening or
normalisation to a two-character code happens. -/
theorem language_C2_amended (s : Settings) (r : Request) (ctx : Context)
    (h : language s r = Except.ok ctx) :
    (∃ p, r.user.profile = some p ∧
      lanValue (language s r) = some p.language) ∨
    lanValue (language s r) = some s.LANGUAGE_CODE := by
  rcases r with ⟨auth, prof⟩
  cases auth
  · right
    simp [language, lanValue, List.find?]
  · cases prof with
    | some p =>
        left
        exact ⟨p, rfl, by simp [language, lanValue, List.find?]⟩
    | none =>
        simp [language] at h

/-- C2 amended, witness at a concrete input. -/
theorem language_C2_amended_witness :
    (∃ p, (Request.mk (User.mk true (some (Profile.mk "es")))).user.profile = some p ∧
      lanValue (language (Settings.mk "en")
        (Request.mk (User.mk true (some (Profile.mk "es"))))) = some p.language) ∨
    lanValue (language (Settings.mk "en")
      (Request.mk (User.mk true (some (Profile.mk "es"))))) = some "en" :=
  language_C2_amended (Settings.mk "en")
    (Request.mk (User.mk true (some (Profile.mk "es")))) [("lan", "es")] rfl

/-- C3: for every request whose user is not authenticated, `language`
returns normally with the context binding lan to the global
LANGUAGE_CODE; the anonymous branch is total and never raises. -/
theorem language_C3_anonymous_total (s : Settings) (r : Request)
    (h : r.user.is_authenticated = false) :
    language s r = Except.ok [("lan", s.LANGUAGE_CODE)] := by
  simp [language, h]

/-- C3, witness at a concrete input. -/
theorem language_C3_anonymous_total_witness :
    language (Settings.mk "en") (Request.mk (User.mk false (some (Profile.mk "es")))) =
      Except.ok [("lan", "en")] :=
  language_C3_anonymous_total (Settings.mk "en")
    (Request.mk (User.mk false (some (Profile.mk "es")))) rfl

/-- C4: there is a request state on which the context processor raises:
an authenticated user with no associated profile record makes the
unguarded attribute access fail. -/
theorem language_C4_raises_without_profile :
    ∃ (s : Settings) (r : Request), r.user.is_authenticated = true ∧
      language s r = Except.error "RelatedObjectDoesNotExist" :=
  ⟨Settings.mk "en", Request.mk (User.mk true none), rfl, rfl⟩

theorem mem_registerPost_formErrors (st : ServerState) (f : RegisterForm)
    (e : String × String) (h : e ∈ registerFormErrors st.users f) :
    e ∈ (registerPost st f).1.formErrors := by
  rw [registerPost_formErrors_of_ne_nil st f (List.ne_nil_of_mem h)]
  exact h

/-- C5: a GET of the activation URL with the valid token and the pk of
an inactive user redirects to the view url, emits the confirmation
message, and the user reloaded from the database has is_active true. -/
theorem activate_C5_valid_token (st : ServerState) (pk : Nat) (u : DbUser)
    (hu : getUserByPk st pk = some u) (hinactive : u.is_active = false) :
    (activateGet st pk (makeToken u)).1.status = 302 ∧
    (activateGet st pk (makeToken u)).1.redirectTo = some activateAccountViewUrl ∧
    (activateGet st pk (makeToken u)).1.messages =
      [Message.success activateSuccessMessage] ∧
    getUserByPk (activateGet st pk (makeToken u)).2 pk =
      some { u with is_active := true } := by
  unfold activateGet
  rw [hu]
  simp only [if_pos rfl]
  refine ⟨rfl, rfl, rfl, ?_⟩
  unfold getUserByPk at hu ⊢
  exact find_map_setActive st.users pk u hu

/-- C5, witness at a concrete state. -/
theorem activate_C5_valid_token_witness :
    (activateGet (ServerState.mk [DbUser.mk 1 "alice" "pw" "a@x" false] 0 2) 1
       (makeToken (DbUser.mk 1 "alice" "pw" "a@x" false))).1.status = 302 ∧
    (activateGet (ServerState.mk [DbUser.mk 1 "alice" "pw" "a@x" false] 0 2) 1
       (makeToken (DbUser.mk 1 "alice" "pw" "a@x" false))).1.redirectTo =
      some activateAccountViewUrl ∧
    (activateGet (ServerState.mk [DbUser.mk 1 "alice" "pw" "a@x" false] 0 2) 1
       (makeToken (DbUser.mk 1 "alice" "pw" "a@x" false))).1.messages =
      [Message.success activateSuccessMessage] ∧
    getUserByPk (activateGet (ServerState.mk [DbUser.mk 1 "alice" "pw" "a@x" false] 0 2) 1
       (makeToken (DbUser.mk 1 "alice" "pw" "a@x" false))).2 1 =
      some { DbUser.mk 1 "alice" "pw" "a@x" false with is_active := true } :=
  activate_C5_valid_token (ServerState.mk [DbUser.mk 1 "alice" "pw" "a@x" false] 0 2) 1
    (DbUser.mk 1 "alice" "pw" "a@x" false) rfl rfl

/-- C6: a POST to the register endpoint with a fresh username, an
email and two matching passwords creates exactly one user row with
that username, sends exactly one email, and shows the success
message. -/
theorem register_C6_success (st : ServerState) (un em pw : String)
    (hfresh : usernameTaken st.users un = false) :
    countUsername
      (registerPost st (RegisterForm.mk (some un) (some em) (some pw) (some pw))).2.users
      un = 1 ∧
    (registerPost st (RegisterForm.mk (some un) (some em) (some pw) (some pw))).2.outbox =
      st.outbox + 1 ∧
    (registerPost st (RegisterForm.mk (some un) (some em) (some pw) (some pw))).1.messages =
      [Message.success signUpSuccessMessage] := by
  have herr : registerFormErrors st.users
      (RegisterForm.mk (some un) (some em) (some pw) (some pw)) = [] := by
    simp [registerFormErrors, requiredError, passwordMatchError, usernameTakenError, hfresh]
  unfold registerPost
  rw [herr]
  refine ⟨?_, rfl, rfl⟩
  have h0 : countUsername st.users un = 0 := countUsername_eq_zero st.users un hfresh
  unfold countUsername at h0 ⊢
  rw [List.filter_append, List.length_append, h0]
  simp

/-- C6, witness at a concrete state. -/
theorem register_C6_success_witness :
    countUsername
      (registerPost (ServerState.mk [] 0 0)
        (RegisterForm.mk (some "bob") (some "b@x") (some "pw") (some "pw"))).2.users
      "bob" = 1 ∧
    (registerPost (ServerState.mk [] 0 0)
      (RegisterForm.mk (some "bob") (some "b@x") (some "pw") (some "pw"))).2.outbox = 0 + 1 ∧
    (registerPost (ServerState.mk [] 0 0)
      (RegisterForm.mk (some "bob") (some "b@x") (some "pw") (some "pw"))).1.messages =
      [Message.success signUpSuccessMessage] :=
  register_C6_success (ServerState.mk [] 0 0) "bob" "b@x" "pw" rfl

/-- C7: a POST to the login endpoint with the correct credentials of
an inactive user establishes no session (the client stays anonymous)
and emits the inactive-user warning. -/
theorem login_C7_inactive (st : ServerState) (un pw : String) (u : DbUser)
    (hfind : findUser st.users un pw = some u) (hinactive : u.is_active = false) :
    (loginPost st (Session.mk none) un pw).2 = Session.mk none ∧
    (loginPost st (Session.mk none) un pw).1.messages =
      [Message.warning inactiveWarning] := by
  unfold loginPost
  rw [hfind]
  simp [hinactive]

/-- C7, witness at a concrete state. -/
theorem login_C7_inactive_witness :
    (loginPost (ServerState.mk [DbUser.mk 1 "alice" "pw" "a@x" false] 0 2)
      (Session.mk none) "alice" "pw").2 = Session.mk none ∧
    (loginPost (ServerState.mk [DbUser.mk 1 "alice" "pw" "a@x" false] 0 2)
      (Session.mk none) "alice" "pw").1.messages =
      [Message.warning inactiveWarning] :=
  login_C7_inactive (ServerState.mk [DbUser.mk 1 "alice" "pw" "a@x" false] 0 2)
    "alice" "pw" (DbUser.mk 1 "alice" "pw" "a@x" false) rfl rfl

/-- C8: a POST to the login endpoint with credentials matching no user
re-renders the form with status 200; the response is never a 500. -/
theorem login_C8_invalid_credentials (st : ServerState) (sess : Session) (un pw : String)
    (hnone : findUser st.users un pw = none) :
    (loginPost st sess un pw).1.status = 200 ∧
    (loginPost st sess un pw).1.status ≠ 500 := by
  unfold loginPost
  rw [hnone]
  exact ⟨rfl, by simp [plainResponse]⟩

/-- C8, witness at a concrete state. -/
theorem login_C8_invalid_credentials_witness :
    (loginPost (ServerState.mk [] 0 0) (Session.mk none) "ghost" "nope").1.status = 200 ∧
    (loginPost (ServerState.mk [] 0 0) (Session.mk none) "ghost" "nope").1.status ≠ 500 :=
  login_C8_invalid_credentials (ServerState.mk [] 0 0) (Session.mk none) "ghost" "nope" rfl

/-- C9: a register POST with mismatched passwords carries the
password-mismatch error on password2, and one with an absent required
field carries the field-required error on exactly that field. -/
theorem register_C9_field_errors (st : ServerState) (f : RegisterForm) :
    (∀ p1 p2, f.password1 = some p1 → f.password2 = some p2 → p1 ≠ p2 →
      ("password2", pwMismatchMsg) ∈ (registerPost st f).1.formErrors) ∧
    (f.username = none →
      ("username", requiredMsg) ∈ (registerPost st f).1.formErrors) ∧
    (f.email = none →
      ("email", requiredMsg) ∈ (registerPost st f).1.formErrors) ∧
    (f.password1 = none →
      ("password1", requiredMsg) ∈ (registerPost st f).1.formErrors) ∧
    (f.password2 = none →
      ("password2", requiredMsg) ∈ (registerPost st f).1.formErrors) := by
  refine ⟨?_, ?_, ?_, ?_, ?_⟩
  · intro p1 p2 hp1 hp2 hne
    apply mem_registerPost_formErrors
    simp [registerFormErrors, passwordMatchError, hp1, hp2, hne]
  · intro h
    apply mem_registerPost_formErrors
    simp [registerFormErrors, requiredError, h]
  · intro h
    apply mem_registerPost_formErrors
    simp [registerFormErrors, requiredError, h]
  · intro h
    apply mem_registerPost_formErrors
    simp [registerFormErrors, requiredError, h]
  · intro h
    apply mem_registerPost_formErrors
    simp [registerFormErrors, requiredError, h]

/-- C9, witness at a concrete form. -/
theorem register_C9_field_errors_witness :
    ("email", requiredMsg) ∈
      (registerPost (ServerState.mk [] 0 0)
        (RegisterForm.mk (some "bob") none (some "a") (some "b"))).1.formErrors ∧
    ("password2", pwMismatchMsg) ∈
      (registerPost (ServerState.mk [] 0 0)
        (RegisterForm.mk (some "bob") none (some "a") (some "b"))).1.formErrors :=
  ⟨(register_C9_field_errors (ServerState.mk [] 0 0)
      (RegisterForm.mk (some "bob") none (some "a") (some "b"))).2.2.1 rfl,
   (register_C9_field_errors (ServerState.mk [] 0 0)
      (RegisterForm.mk (some "bob") none (some "a") (some "b"))).1
     "a" "b" rfl rfl (by decide)⟩

/-- C10: a GET of login or register by an authenticated client is
answered 302; the same GETs by an anonymous client are answered
200. -/
theorem access_C10_redirect_when_logged (pk : Nat) :
    (loginGet (Session.mk (some pk))).status = 302 ∧
    (registerGet (Session.mk (some pk))).status = 302 ∧
    (loginGet (Session.mk none)).status = 200 ∧
    (registerGet (Session.mk none)).status = 200 :=
  ⟨rfl, rfl, rfl, rfl⟩

end OilAndRope
